import Mathlib

/-!
Shallow embedding of `src/app/src/main/cpp/main.c` (NDKarte): the EGL
surface-lifecycle controller, the lifecycle command handler, the input
handler and the `android_main` event loop.

Modelling conventions:
* EGL handles (`EGLDisplay`, `EGLSurface`, `EGLContext`) are `Nat`, with
  `0` standing for `EGL_NO_DISPLAY` / `EGL_NO_SURFACE` / `EGL_NO_CONTEXT`
  (all of which are the null pointer in EGL).
* The results of the external EGL calls made by one `init_display` run are
  supplied by an `EglEnv` oracle record, one field per call, mirroring the
  order of the calls in the C function.
* External side effects (EGL/GL calls) are recorded in trace lists so that
  "no destroy call happened" and "exactly one swap happened" are provable
  statements.
* `destroyRequested` lives on `struct android_app` in C; it is folded into
  the state record here.  Per the NDK glue contract
  (`android_app_pre_exec_cmd`), it is set when the `APP_CMD_DESTROY`
  command is delivered, before the app's `handle_cmd` callback runs.
-/

namespace NDKarte

/-- Application state structure, mirroring `AppState` in `main.c`
(plus the glue's `destroyRequested` flag). -/
structure AppState where
  display : Nat
  surface : Nat
  context : Nat
  width : Int
  height : Int
  initialized : Bool
  has_focus : Bool
  destroyRequested : Bool
  deriving Repr, DecidableEq

/-- Oracle for the external EGL calls made by one `init_display` attempt:
each field is the result the EGL implementation returns for the
corresponding call, in call order. -/
structure EglEnv where
  /-- result of `eglGetDisplay(EGL_DEFAULT_DISPLAY)`; `0` = `EGL_NO_DISPLAY` -/
  displayHandle : Nat
  /-- result of `eglInitialize` -/
  initOk : Bool
  /-- `eglChooseConfig` succeeded and `num_configs != 0` -/
  chooseOk : Bool
  /-- result of `eglCreateWindowSurface`; `0` = `EGL_NO_SURFACE` -/
  surfaceHandle : Nat
  /-- result of `eglCreateContext`; `0` = `EGL_NO_CONTEXT` -/
  contextHandle : Nat
  /-- result of `eglMakeCurrent` -/
  makeCurrentOk : Bool
  /-- value `eglQuerySurface` reports for `EGL_WIDTH` -/
  queriedWidth : Int
  /-- value `eglQuerySurface` reports for `EGL_HEIGHT` -/
  queriedHeight : Int
  deriving Repr, DecidableEq

/-- Trace entries for the external EGL/GL calls the program issues. -/
inductive EglCall where
  | getDisplay
  | initEGL
  | chooseConfig
  | createWindowSurface (window : Nat)
  | makeCurrent (display surface context : Nat)
  | createContext
  | destroyContext (context : Nat)
  | destroySurface (surface : Nat)
  | terminateEGL (display : Nat)
  | clearColor
  | clear
  | swapBuffers (display surface : Nat)
  deriving Repr, DecidableEq

/-- Embedding of `init_display` (main.c lines 45-117).  The C function
writes each handle into the state as soon as the corresponding EGL call
returns, and on any failing check it simply returns `false` without
unwinding the earlier steps.  Returns the updated state, the `bool`
result, and the trace of EGL calls issued. -/
def init_display (s0 : AppState) (window : Nat) (env : EglEnv) :
    AppState × Bool × List EglCall :=
  -- state->display = eglGetDisplay(EGL_DEFAULT_DISPLAY);
  let s1 : AppState := { s0 with display := env.displayHandle }
  if s1.display = 0 then
    (s1, false, [EglCall.getDisplay])
  else if env.initOk = false then
    -- if (!eglInitialize(...)) return false;
    (s1, false, [EglCall.getDisplay, EglCall.initEGL])
  else if env.chooseOk = false then
    -- if (!eglChooseConfig(...) || num_configs == 0) return false;
    (s1, false, [EglCall.getDisplay, EglCall.initEGL, EglCall.chooseConfig])
  else
    -- state->surface = eglCreateWindowSurface(...);
    let s2 : AppState := { s1 with surface := env.surfaceHandle }
    if s2.surface = 0 then
      (s2, false,
        [EglCall.getDisplay, EglCall.initEGL, EglCall.chooseConfig,
         EglCall.createWindowSurface window])
    else
      -- state->context = eglCreateContext(...);
      let s3 : AppState := { s2 with context := env.contextHandle }
      if s3.context = 0 then
        (s3, false,
          [EglCall.getDisplay, EglCall.initEGL, EglCall.chooseConfig,
           EglCall.createWindowSurface window, EglCall.createContext])
      else if env.makeCurrentOk = false then
        -- if (!eglMakeCurrent(...)) return false;
        (s3, false,
          [EglCall.getDisplay, EglCall.initEGL, EglCall.chooseConfig,
           EglCall.createWindowSurface window, EglCall.createContext,
           EglCall.makeCurrent s3.display s3.surface s3.context])
      else
        -- eglQuerySurface width/height; glViewport; state->initialized = true;
        ({ s3 with
            width := env.queriedWidth
            height := env.queriedHeight
            initialized := true },
          true,
          [EglCall.getDisplay, EglCall.initEGL, EglCall.chooseConfig,
           EglCall.createWindowSurface window, EglCall.createContext,
           EglCall.makeCurrent s3.display s3.surface s3.context])

/-- Embedding of `terminate_display` (main.c lines 122-143): when a display
connection exists it unbinds the current context, destroys the context and
surface when present, and terminates the connection; it then
unconditionally nulls the three handles and clears `initialized`.
Returns the updated state and the trace of EGL calls issued. -/
def terminate_display (s : AppState) : AppState × List EglCall :=
  let calls : List EglCall :=
    if s.display ≠ 0 then
      EglCall.makeCurrent s.display 0 0 ::
        ((if s.context ≠ 0 then [EglCall.destroyContext s.context] else []) ++
         (if s.surface ≠ 0 then [EglCall.destroySurface s.surface] else []) ++
         [EglCall.terminateEGL s.display])
    else []
  ({ s with display := 0, surface := 0, context := 0, initialized := false },
    calls)

/-- Embedding of `render_frame` (main.c lines 148-161): a no-op when
`initialized` is false, otherwise clear (the per-frame draw) followed by
`eglSwapBuffers`.  The C function writes no field of the state, so the
embedding returns only the trace of GL/EGL calls. -/
def render_frame (s : AppState) : List EglCall :=
  if s.initialized = false then []
  else [EglCall.clearColor, EglCall.clear,
        EglCall.swapBuffers s.display s.surface]

/-- Input event type codes used by `handle_input` (NDK values). -/
def AINPUT_EVENT_TYPE_KEY : Nat := 1

/-- `AINPUT_EVENT_TYPE_MOTION` from the NDK headers. -/
def AINPUT_EVENT_TYPE_MOTION : Nat := 2

/-- `AMOTION_EVENT_ACTION_MASK` from the NDK headers (low byte of the action). -/
def AMOTION_EVENT_ACTION_MASK : Nat := 0xff

/-- `AMOTION_EVENT_ACTION_DOWN`. -/
def AMOTION_EVENT_ACTION_DOWN : Nat := 0

/-- `AMOTION_EVENT_ACTION_UP`. -/
def AMOTION_EVENT_ACTION_UP : Nat := 1

/-- `AMOTION_EVENT_ACTION_MOVE`. -/
def AMOTION_EVENT_ACTION_MOVE : Nat := 2

/-- Observable data of one `AInputEvent`, as read by `handle_input`:
the event type, the raw action word, and the primary pointer's
coordinates (floats in C; only logged, modelled as `Int`). -/
structure AInputEvent where
  eventType : Nat
  action : Nat
  x : Int
  y : Int
  deriving Repr, DecidableEq

/-- Touch log lines emitted by the action switch of `handle_input`. -/
inductive TouchLog where
  | down (x y : Int)
  | up (x y : Int)
  deriving Repr, DecidableEq

/-- Embedding of `handle_input` (main.c lines 214-241).  Motion events run
the masked-action switch (which only logs) and return `1` (handled);
every other event type returns `0` (not handled). -/
def handle_input (e : AInputEvent) : Nat × Option TouchLog :=
  if e.eventType = AINPUT_EVENT_TYPE_MOTION then
    let masked := e.action &&& AMOTION_EVENT_ACTION_MASK
    let log : Option TouchLog :=
      if masked = AMOTION_EVENT_ACTION_DOWN then some (TouchLog.down e.x e.y)
      else if masked = AMOTION_EVENT_ACTION_UP then some (TouchLog.up e.x e.y)
      else none
    (1, log)
  else
    (0, none)

/-- Lifecycle commands delivered to `handle_cmd`.  `initWindow` carries the
current native window handle (`app->window`, `0` = `NULL`), set by the
glue before delivery, plus the `EglEnv` oracle for the acquire attempt
that the command may trigger. -/
inductive Cmd where
  | initWindow (window : Nat) (env : EglEnv)
  | termWindow
  | gainedFocus
  | lostFocus
  | pauseCmd
  | resumeCmd
  | destroyCmd
  deriving Repr, DecidableEq

/-- Summary trace events emitted while the program runs. -/
inductive Ev where
  /-- an `ALooper_pollAll` call, with the timeout argument it was given -/
  | poll (timeout : Int)
  /-- an `init_display` call and its boolean result -/
  | acquire (ok : Bool)
  /-- a `terminate_display` call -/
  | release
  /-- a `render_frame` call, with the GL/EGL calls it issued -/
  | render (calls : List EglCall)
  /-- a `handle_input` call, with the value it returned -/
  | inputHandled (consumed : Nat)
  deriving Repr, DecidableEq

/-- Embedding of `handle_cmd` (main.c lines 166-209).  Returns the updated
state and the summary trace of the SurfaceContext operations invoked. -/
def handle_cmd (s : AppState) (c : Cmd) : AppState × List Ev :=
  match c with
  | Cmd.initWindow window env =>
      -- case APP_CMD_INIT_WINDOW: if (app->window != NULL) init_display(state);
      if window ≠ 0 then
        let r := init_display s window env
        (r.1, [Ev.acquire r.2.1])
      else
        (s, [])
  | Cmd.termWindow =>
      -- case APP_CMD_TERM_WINDOW: terminate_display(state);
      ((terminate_display s).1, [Ev.release])
  | Cmd.gainedFocus =>
      -- case APP_CMD_GAINED_FOCUS: state->has_focus = true;
      ({ s with has_focus := true }, [])
  | Cmd.lostFocus =>
      -- case APP_CMD_LOST_FOCUS: state->has_focus = false; render_frame(state);
      let s1 := { s with has_focus := false }
      (s1, [Ev.render (render_frame s1)])
  | Cmd.pauseCmd => (s, [])
  | Cmd.resumeCmd => (s, [])
  | Cmd.destroyCmd =>
      -- case APP_CMD_DESTROY: log only
      (s, [])

/-- One item a poll source delivers: a lifecycle command or an input event. -/
inductive Item where
  | cmd (c : Cmd)
  | input (e : AInputEvent)
  deriving Repr, DecidableEq

/-- Processing of one non-null poll source (`source->process(app, source)`),
i.e. the glue's `process_cmd` / `process_input`.  For a command, the glue's
`android_app_pre_exec_cmd` sets `destroyRequested` on `APP_CMD_DESTROY`
before invoking the app's `handle_cmd` callback. -/
def process_source (s : AppState) (i : Item) : AppState × List Ev :=
  match i with
  | Item.cmd c =>
      let s1 := match c with
        | Cmd.destroyCmd => { s with destroyRequested := true }
        | _ => s
      handle_cmd s1 c
  | Item.input e =>
      (s, [Ev.inputHandled (handle_input e).1])

/-- One outcome of an `ALooper_pollAll` call, as scripted by the host pump. -/
inductive PollEntry where
  /-- `pollAll` returned `>= 0`; `src = none` models a `NULL` source -/
  | ev (src : Option Item)
  /-- `pollAll` returned `< 0`: nothing pending, the inner drain loop exits -/
  | idle
  deriving Repr, DecidableEq

/-- Timeout passed to `ALooper_pollAll`:
`state.has_focus ? 0 : -1` (main.c line 267). -/
def pollTimeout (hasFocus : Bool) : Int :=
  if hasFocus then 0 else -1

/-- Whether an `ALooper_pollAll` timeout argument makes the call block
until an event arrives (negative timeout = wait indefinitely). -/
def blocksUntilEvent (timeout : Int) : Bool :=
  decide (timeout < 0)

/-- Embedding of the main loop of `android_main` (main.c lines 262-284),
run against a finite script of poll outcomes.  Each scripted `pollAll`
call is recorded with the timeout the loop passed it.  After processing a
source the loop checks `destroyRequested` and, when set, calls
`terminate_display` and returns, leaving the rest of the script
unconsumed (those polls never happen).  On `idle` (poll returned `< 0`)
the inner drain loop exits and the loop renders one frame when focused.
Returns the final state, the trace, and the unconsumed script suffix. -/
def android_main_loop : AppState → List PollEntry → AppState × List Ev × List PollEntry
  | s, [] => (s, [], [])
  | s, PollEntry.idle :: rest =>
      let renderEvs := if s.has_focus then [Ev.render (render_frame s)] else []
      let r := android_main_loop s rest
      (r.1, Ev.poll (pollTimeout s.has_focus) :: (renderEvs ++ r.2.1), r.2.2)
  | s, PollEntry.ev src :: rest =>
      let p : AppState × List Ev :=
        match src with
        | some i => process_source s i
        | none => (s, [])
      if p.1.destroyRequested then
        ((terminate_display p.1).1,
          Ev.poll (pollTimeout s.has_focus) :: (p.2 ++ [Ev.release]),
          rest)
      else
        let r := android_main_loop p.1 rest
        (r.1, Ev.poll (pollTimeout s.has_focus) :: (p.2 ++ r.2.1), r.2.2)

/-- Initial application state built at the top of `android_main`
(main.c lines 250-254): zero-initialized, with the three EGL handles
explicitly set to the null constants. -/
def state0 : AppState :=
  { display := 0, surface := 0, context := 0, width := 0, height := 0,
    initialized := false, has_focus := false, destroyRequested := false }

/-- Embedding of `android_main`: initialize the state, then run the loop
on the host-supplied script. -/
def android_main (script : List PollEntry) : AppState × List Ev × List PollEntry :=
  android_main_loop state0 script

/-- Run a sequence of lifecycle commands through `handle_cmd`. -/
def runCmds : AppState → List Cmd → AppState
  | s, [] => s
  | s, c :: cs => runCmds (handle_cmd s c).1 cs

/-- Number of `eglSwapBuffers` calls in an EGL call trace. -/
def swapsIn : List EglCall → Nat
  | [] => 0
  | EglCall.swapBuffers _ _ :: cs => swapsIn cs + 1
  | _ :: cs => swapsIn cs

/-- Number of buffer swaps (frame presentations) in a summary trace. -/
def presentsIn : List Ev → Nat
  | [] => 0
  | Ev.render calls :: evs => swapsIn calls + presentsIn evs
  | _ :: evs => presentsIn evs

/-- Number of `terminate_display` (release) invocations in a summary trace. -/
def releasesIn : List Ev → Nat
  | [] => 0
  | Ev.release :: evs => releasesIn evs + 1
  | _ :: evs => releasesIn evs

/-- Number of `ALooper_pollAll` calls in a summary trace. -/
def pollsIn : List Ev → Nat
  | [] => 0
  | Ev.poll _ :: evs => pollsIn evs + 1
  | _ :: evs => pollsIn evs

/-- Whether an EGL call is a teardown operation (destroy or terminate). -/
def isTeardown : EglCall → Bool
  | EglCall.destroyContext _ => true
  | EglCall.destroySurface _ => true
  | EglCall.terminateEGL _ => true
  | _ => false

/-- Fully successful EGL environment (all calls succeed, distinct handles). -/
def envOk : EglEnv :=
  { displayHandle := 1, initOk := true, chooseOk := true,
    surfaceHandle := 2, contextHandle := 3, makeCurrentOk := true,
    queriedWidth := 1920, queriedHeight := 1200 }

/-- EGL environment in which connection, init, config and surface creation
succeed but `eglCreateContext` returns `EGL_NO_CONTEXT`. -/
def envCtxFail : EglEnv :=
  { displayHandle := 1, initOk := true, chooseOk := true,
    surfaceHandle := 2, contextHandle := 0, makeCurrentOk := true,
    queriedWidth := 0, queriedHeight := 0 }

/-- EGL environment in which `eglGetDisplay` returns `EGL_NO_DISPLAY`. -/
def envDispFail : EglEnv :=
  { displayHandle := 0, initOk := true, chooseOk := true,
    surfaceHandle := 2, contextHandle := 3, makeCurrentOk := true,
    queriedWidth := 0, queriedHeight := 0 }

/-- A fully acquired state: all handles live, initialized, focused. -/
def sReady : AppState :=
  { display := 1, surface := 2, context := 3, width := 1920, height := 1200,
    initialized := true, has_focus := true, destroyRequested := false }

/-- C10: for every prior state, including a partially constructed one left
by a failed acquire, after `terminate_display` (release) returns, all
three handles are null and `initialized` is false. -/
theorem c10_release_resets_everything (s : AppState) :
    (terminate_display s).1.display = 0 ∧ (terminate_display s).1.surface = 0 ∧
    (terminate_display s).1.context = 0 ∧
    (terminate_display s).1.initialized = false :=
  ⟨rfl, rfl, rfl, rfl⟩

/-- C7: `terminate_display` (release) is idempotent: applied to the result
of a first call it returns the same state and issues no EGL calls at all
(no destroy/terminate operations), so the second call is a no-op. -/
theorem c7_release_idempotent (s : AppState) :
    terminate_display (terminate_display s).1 = ((terminate_display s).1, []) := by
  simp [terminate_display]

/-- C6: `render_frame` (present) is a no-op issuing no GL/EGL call at all
when `initialized` is false (and it writes no state field in any case);
when `initialized` is true it issues the per-frame draw (clear) and then
swaps the surface. -/
theorem c6_present_noop_iff_uninitialized (s : AppState) :
    render_frame s =
      if s.initialized then
        [EglCall.clearColor, EglCall.clear,
         EglCall.swapBuffers s.display s.surface]
      else [] := by
  by_cases h : s.initialized <;> simp [render_frame, h]

/-- C9: a `WindowAvailable` command delivered while the native window
handle is `NULL` leaves the state completely unchanged and invokes no
SurfaceContext operation (acquire is not attempted). -/
theorem c9_initWindow_null_window_noop (s : AppState) (env : EglEnv) :
    handle_cmd s (Cmd.initWindow 0 env) = (s, []) := by
  simp [handle_cmd]

/-- C8: `handle_input` returns consumed (`1`) exactly for motion events —
including motion events whose masked action code is none of
down/up/move — and not-handled (`0`) exactly for every other event
category. -/
theorem c8_consumed_iff_motion (e : AInputEvent) :
    ((handle_input e).1 = 1 ↔ e.eventType = AINPUT_EVENT_TYPE_MOTION) ∧
    ((handle_input e).1 = 0 ↔ e.eventType ≠ AINPUT_EVENT_TYPE_MOTION) := by
  by_cases h : e.eventType = AINPUT_EVENT_TYPE_MOTION <;>
    simp [handle_input, h]

/-- C4: every `ALooper_pollAll` call in the loop is issued with timeout
`0` (non-blocking) when `has_focus` is true and `-1` (block until an
event arrives) when `has_focus` is false.  Stated for the poll opening an
arbitrary iteration from an arbitrary state, which covers every poll of
every run. -/
theorem c4_poll_blocking_policy (s : AppState) (e : PollEntry)
    (rest : List PollEntry) :
    (android_main_loop s (e :: rest)).2.1.head? =
      some (Ev.poll (pollTimeout s.has_focus)) ∧
    pollTimeout true = 0 ∧ pollTimeout false = -1 ∧
    blocksUntilEvent (pollTimeout s.has_focus) = !s.has_focus := by
  refine ⟨?_, rfl, rfl, ?_⟩
  · cases e with
    | idle => simp [android_main_loop]
    | ev src =>
        simp only [android_main_loop]
        split <;> simp
  · by_cases h : s.has_focus <;> simp [pollTimeout, blocksUntilEvent, h]

/-- C3: when the loop polls the `Destroy` command, the glue sets
`destroyRequested`, the app's `handle_cmd` performs no SurfaceContext
operation, and the loop then calls `terminate_display` (release) exactly
once and returns within that same iteration: the trace is exactly one
poll followed by one release, and the remainder of the script is left
unconsumed (no further polls or render attempts). -/
theorem c3_destroy_terminates_loop (s : AppState) (rest : List PollEntry) :
    android_main_loop s (PollEntry.ev (some (Item.cmd Cmd.destroyCmd)) :: rest) =
      ((terminate_display { s with destroyRequested := true }).1,
        [Ev.poll (pollTimeout s.has_focus), Ev.release],
        rest) := by
  simp [android_main_loop, process_source, handle_cmd]

/-- C5: a `FocusLost` command handled while the surface is valid sets
`has_focus` to false and triggers exactly one present (buffer swap) from
inside the handler; the subsequent poll is blocking, and a full loop
iteration that processes `FocusLost` and then drains (idle poll) presents
exactly one frame in total — the forced one, since the per-iteration
render at the bottom of the loop is skipped once `has_focus` is false. -/
theorem c5_focus_lost_forces_one_present (s : AppState)
    (hinit : s.initialized = true) (hd : s.destroyRequested = false) :
    (handle_cmd s Cmd.lostFocus).1.has_focus = false ∧
    presentsIn (handle_cmd s Cmd.lostFocus).2 = 1 ∧
    blocksUntilEvent (pollTimeout (handle_cmd s Cmd.lostFocus).1.has_focus)
      = true ∧
    presentsIn (android_main_loop s
      [PollEntry.ev (some (Item.cmd Cmd.lostFocus)), PollEntry.idle]).2.1
      = 1 := by
  refine ⟨rfl, ?_, rfl, ?_⟩
  · simp [handle_cmd, render_frame, hinit, presentsIn, swapsIn]
  · simp [android_main_loop, process_source, handle_cmd, render_frame,
      hinit, hd, presentsIn, swapsIn]

/-- C5 witness: the theorem applied to the concrete acquired state. -/
theorem c5_witness :
    sReady.initialized = true ∧ sReady.destroyRequested = false ∧
    ((handle_cmd sReady Cmd.lostFocus).1.has_focus = false ∧
     presentsIn (handle_cmd sReady Cmd.lostFocus).2 = 1 ∧
     blocksUntilEvent (pollTimeout (handle_cmd sReady Cmd.lostFocus).1.has_focus)
       = true ∧
     presentsIn (android_main_loop sReady
       [PollEntry.ev (some (Item.cmd Cmd.lostFocus)), PollEntry.idle]).2.1
       = 1) :=
  ⟨rfl, rfl, c5_focus_lost_forces_one_present sReady rfl rfl⟩

/-- C1 counterexample: acquire with the context-creation step failing
(after display connection, init, config and surface creation succeeded)
returns failure but does NOT tear the SurfaceContext down: the display
handle (`1`) and the surface handle (`2`) created by the earlier
successful steps are still stored in the state, contradicting the claim
that no handle created by an earlier successful step is retained. -/
theorem c1_counterexample :
    (init_display state0 1 envCtxFail).2.1 = false ∧
    (init_display state0 1 envCtxFail).1.display = 1 ∧
    (init_display state0 1 envCtxFail).1.surface = 2 :=
  ⟨rfl, rfl, rfl⟩

/-- Helper: `init_display` never issues a destroy or terminate call, on
any path (it has no unwind code). -/
lemma init_display_no_teardown (s : AppState) (w : Nat) (env : EglEnv) :
    ((init_display s w env).2.2.all fun c => !isTeardown c) = true := by
  by_cases h1 : env.displayHandle = 0 <;>
  by_cases h2 : env.initOk = false <;>
  by_cases h3 : env.chooseOk = false <;>
  by_cases h4 : env.surfaceHandle = 0 <;>
  by_cases h5 : env.contextHandle = 0 <;>
  by_cases h6 : env.makeCurrentOk = false <;>
  simp [init_display, isTeardown, h1, h2, h3, h4, h5, h6]

/-- Helper: on every failing path of `init_display` the `initialized`
flag is left exactly as it was. -/
lemma init_display_fail_initialized (s : AppState) (w : Nat) (env : EglEnv)
    (hfail : (init_display s w env).2.1 = false) :
    (init_display s w env).1.initialized = s.initialized := by
  by_cases h1 : env.displayHandle = 0 <;>
  by_cases h2 : env.initOk = false <;>
  by_cases h3 : env.chooseOk = false <;>
  by_cases h4 : env.surfaceHandle = 0 <;>
  by_cases h5 : env.contextHandle = 0 <;>
  by_cases h6 : env.makeCurrentOk = false <;>
  simp [init_display, h1, h2, h3, h4, h5, h6] at hfail ⊢

/-- C1 amended: when acquire fails at any step, `initialized` is left
unchanged (hence still false when acquire was attempted from a released
state), but no teardown is performed: acquire issues no destroy or
terminate call, so handles created by the earlier successful steps of
that call remain stored in the SurfaceContext until the next release. -/
theorem c1_amended_fail_leaves_state_unwound (s : AppState) (w : Nat)
    (env : EglEnv) (hfail : (init_display s w env).2.1 = false) :
    (init_display s w env).1.initialized = s.initialized ∧
    ((init_display s w env).2.2.all fun c => !isTeardown c) = true :=
  ⟨init_display_fail_initialized s w env hfail,
   init_display_no_teardown s w env⟩

/-- C1 amended witness: the amended theorem at the concrete
context-creation failure. -/
theorem c1_amended_witness :
    (init_display state0 1 envCtxFail).2.1 = false ∧
    ((init_display state0 1 envCtxFail).1.initialized = state0.initialized ∧
     ((init_display state0 1 envCtxFail).2.2.all fun c => !isTeardown c)
       = true) :=
  ⟨rfl, c1_amended_fail_leaves_state_unwound state0 1 envCtxFail rfl⟩

/-- Whether the SurfaceContext is fully released: all three handles null
and `initialized` false (the state `terminate_display` produces, and the
initial state). -/
def releasedB (s : AppState) : Bool :=
  (s.display == 0) && (s.surface == 0) && (s.context == 0) && !s.initialized

/-- Host delivery discipline: every `WindowAvailable` command in the
sequence is delivered only while the SurfaceContext is fully released
(the INIT_WINDOW / TERM_WINDOW pairing the OS guarantees). -/
def disciplinedB : AppState → List Cmd → Bool
  | _, [] => true
  | s, c :: cs =>
      (match c with
       | Cmd.initWindow _ _ => releasedB s
       | _ => true) && disciplinedB (handle_cmd s c).1 cs

/-- The handle half of the spec invariant: `initialized` implies all
three handles non-null. -/
def handlesValid (s : AppState) : Prop :=
  s.initialized = true → s.display ≠ 0 ∧ s.surface ≠ 0 ∧ s.context ≠ 0

/-- Helper: an acquire attempted from a fully released state yields a
state satisfying `handlesValid` whether it succeeds or fails. -/
lemma handlesValid_init_display (s : AppState) (w : Nat) (env : EglEnv)
    (h : releasedB s = true) : handlesValid (init_display s w env).1 := by
  have hini : s.initialized = false := by
    simp only [releasedB, Bool.and_eq_true, Bool.not_eq_true'] at h
    exact h.2
  by_cases h1 : env.displayHandle = 0 <;>
  by_cases h2 : env.initOk = false <;>
  by_cases h3 : env.chooseOk = false <;>
  by_cases h4 : env.surfaceHandle = 0 <;>
  by_cases h5 : env.contextHandle = 0 <;>
  by_cases h6 : env.makeCurrentOk = false <;>
  simp [handlesValid, init_display, h1, h2, h3, h4, h5, h6, hini]

/-- Helper: `handlesValid` is preserved by every disciplined command
sequence. -/
lemma handlesValid_runCmds (cs : List Cmd) : ∀ (s : AppState),
    handlesValid s → disciplinedB s cs = true →
    handlesValid (runCmds s cs) := by
  induction cs with
  | nil => intro s hv _; exact hv
  | cons c cs ih =>
      intro s hv hd
      rw [runCmds]
      cases c with
      | initWindow w env =>
          simp only [disciplinedB, Bool.and_eq_true] at hd
          refine ih _ ?_ hd.2
          by_cases hw : w = 0
          · subst hw; simpa [handle_cmd] using hv
          · have hva := handlesValid_init_display s w env hd.1
            simpa [handle_cmd, hw] using hva
      | termWindow =>
          simp only [disciplinedB, Bool.true_and] at hd
          refine ih _ ?_ hd
          intro hinit
          simp [handle_cmd, terminate_display] at hinit
      | gainedFocus =>
          simp only [disciplinedB, Bool.true_and] at hd
          refine ih _ ?_ hd
          intro hinit
          simp only [handle_cmd] at hinit ⊢
          exact hv hinit
      | lostFocus =>
          simp only [disciplinedB, Bool.true_and] at hd
          refine ih _ ?_ hd
          intro hinit
          simp only [handle_cmd] at hinit ⊢
          exact hv hinit
      | pauseCmd =>
          simp only [disciplinedB, Bool.true_and] at hd
          refine ih _ ?_ hd
          simpa [handle_cmd] using hv
      | resumeCmd =>
          simp only [disciplinedB, Bool.true_and] at hd
          refine ih _ ?_ hd
          simpa [handle_cmd] using hv
      | destroyCmd =>
          simp only [disciplinedB, Bool.true_and] at hd
          refine ih _ ?_ hd
          simpa [handle_cmd] using hv

/-- C2 counterexample: both directions of the claimed invariant fail on
reachable states.  (a) After a single `WindowAvailable` whose acquire
fails at context creation, `initialized` is false yet the surface handle
is non-null — refuting "surfaceValid == false implies all three null".
(b) After a successful acquire followed by a second `WindowAvailable`
whose acquire fails at `eglGetDisplay`, `initialized` is still true yet
the display handle is null — refuting "surfaceValid == true implies all
three non-null" for unrestricted command sequences. -/
theorem c2_counterexample :
    ((runCmds state0 [Cmd.initWindow 1 envCtxFail]).initialized = false ∧
     (runCmds state0 [Cmd.initWindow 1 envCtxFail]).surface = 2) ∧
    ((runCmds state0
        [Cmd.initWindow 1 envOk, Cmd.initWindow 1 envDispFail]).initialized
        = true ∧
     (runCmds state0
        [Cmd.initWindow 1 envOk, Cmd.initWindow 1 envDispFail]).display
        = 0) :=
  ⟨⟨rfl, rfl⟩, ⟨rfl, rfl⟩⟩

/-- C2 amended: under the host pairing discipline (every WindowAvailable
is delivered only while the SurfaceContext is fully released), every
reachable state satisfies: `initialized == true` implies all three
handles are non-null.  The converse direction of the original claim
(`initialized == false` implies all three null) does not hold: a failed
acquire leaves `initialized` false while retaining the handles its
completed steps created, until the next release. -/
theorem c2_amended_initialized_implies_handles (cs : List Cmd)
    (hdisc : disciplinedB state0 cs = true)
    (hinit : (runCmds state0 cs).initialized = true) :
    (runCmds state0 cs).display ≠ 0 ∧ (runCmds state0 cs).surface ≠ 0 ∧
    (runCmds state0 cs).context ≠ 0 :=
  handlesValid_runCmds cs state0 (fun h => by simp [state0] at h) hdisc hinit

/-- C2 amended witness: a disciplined successful acquire reaches an
initialized state, and the amended invariant yields non-null handles. -/
theorem c2_amended_witness :
    disciplinedB state0 [Cmd.initWindow 1 envOk] = true ∧
    (runCmds state0 [Cmd.initWindow 1 envOk]).initialized = true ∧
    ((runCmds state0 [Cmd.initWindow 1 envOk]).display ≠ 0 ∧
     (runCmds state0 [Cmd.initWindow 1 envOk]).surface ≠ 0 ∧
     (runCmds state0 [Cmd.initWindow 1 envOk]).context ≠ 0) :=
  ⟨by decide, rfl,
   c2_amended_initialized_implies_handles [Cmd.initWindow 1 envOk]
     (by decide) rfl⟩

end NDKarte
